import Mathlib

/-!
Verification of the CityNext civic-appointment service (src/main.go).

The embedding models the `createAppointment` HTTP handler and the SQLite
store it drives.  Dates are triples (year, month, day) at midnight UTC,
matching Go `time.Time` values produced by `time.Parse("2006-01-02", _)`
and `time.Date(y, m, d, 0, 0, 0, 0, time.UTC)`.  The database is the list
of rows of the `appointments` table together with the next AUTOINCREMENT
id; the UNIQUE constraint on `visit_date` is modelled inside the insert
operation.  Per-request nondeterminism of the environment (the real
clock, the HTTP method, the decoded body, infrastructure failures of the
two queries, and rows committed by concurrent requests between the
existence pre-check and the insert) is resolved by an explicit `Env`
record, so the handler itself is a pure function.
-/

namespace CityNext

/-- A calendar date: the (year, month, day) of a Go `time.Time` at
midnight UTC.  The year is an `Int` as in Go; month and day are `Nat`. -/
structure Date where
  y : Int
  m : Nat
  d : Nat
deriving DecidableEq

/-- Go `isLeap`: divisible by 4 and (not by 100 or by 400). -/
def isLeap (y : Int) : Bool :=
  decide (y % 4 = 0) && (decide (y % 100 ≠ 0) || decide (y % 400 = 0))

/-- Go `daysIn(m, year)`: the number of days of month `m` in year `y`.
Only meaningful for `1 ≤ m ≤ 12`. -/
def daysInMonth (y : Int) (m : Nat) : Nat :=
  match m with
  | 2 => if isLeap y then 29 else 28
  | 4 => 30
  | 6 => 30
  | 9 => 30
  | 11 => 30
  | _ => 31

/-- Go `t.Before(u)` for two midnight-UTC dates: lexicographic on
(year, month, day), which is the chronological order on canonical dates. -/
def dateBefore (a b : Date) : Bool :=
  decide (a.y < b.y) ||
    (decide (a.y = b.y) &&
      (decide (a.m < b.m) || (decide (a.m = b.m) && decide (a.d < b.d))))

/-- ASCII digit test, as Go's byte-level `isDigit` in package `time`. -/
def isDigitChar (c : Char) : Bool :=
  decide ('0' ≤ c) && decide (c ≤ '9')

/-- Numeric value of an ASCII digit character. -/
def digitVal (c : Char) : Nat :=
  c.toNat - '0'.toNat

/-- Go `time.Parse("2006-01-02", s)`: exactly four digits, a dash, two
digits, a dash, two digits, nothing else; the month must lie in 1..12 and
the day in 1..daysIn(month, year).  Returns the parsed date, or `none`
when Go returns a parse error. -/
def parseDate (str : String) : Option Date :=
  match str.data with
  | [y1, y2, y3, y4, c1, m1, m2, c2, d1, d2] =>
    if isDigitChar y1 && isDigitChar y2 && isDigitChar y3 && isDigitChar y4 &&
        decide (c1 = '-') && isDigitChar m1 && isDigitChar m2 &&
        decide (c2 = '-') && isDigitChar d1 && isDigitChar d2 then
      let y : Nat := ((digitVal y1 * 10 + digitVal y2) * 10 + digitVal y3) * 10 + digitVal y4
      let m : Nat := digitVal m1 * 10 + digitVal m2
      let d : Nat := digitVal d1 * 10 + digitVal d2
      if 1 ≤ m ∧ m ≤ 12 ∧ 1 ≤ d ∧ d ≤ daysInMonth (Int.ofNat y) m then
        some ⟨Int.ofNat y, m, d⟩
      else
        none
    else
      none
  | _ => none

/-- Zero-pad a natural number to two decimal digits (Go layout "01"/"02"). -/
def pad2 (n : Nat) : String :=
  if n < 10 then "0" ++ toString n else toString n

/-- Zero-pad a natural number to four decimal digits (Go layout "2006",
for the years 0..9999 that `parseDate` can produce). -/
def pad4 (n : Nat) : String :=
  if n < 10 then "000" ++ toString n
  else if n < 100 then "00" ++ toString n
  else if n < 1000 then "0" ++ toString n
  else toString n

/-- Go `t.Format("2006-01-02")` on a parsed visit date. -/
def formatDate (dt : Date) : String :=
  pad4 dt.y.toNat ++ "-" ++ pad2 dt.m ++ "-" ++ pad2 dt.d

/-- Accumulate a digit string into a natural number. -/
def digitsToNat (ds : List Char) : Nat :=
  ds.foldl (fun a c => a * 10 + digitVal c) 0

/-- Go `strconv.Atoi`: an optional sign followed by at least one digit,
all characters digits, and the signed value must fit in a 64-bit int
(`Atoi` reports an error on overflow).  `none` models a non-nil error. -/
def atoi (str : String) : Option Int :=
  let signAndDigits : Bool × List Char :=
    match str.data with
    | '+' :: rest => (false, rest)
    | '-' :: rest => (true, rest)
    | cs => (false, cs)
  let neg := signAndDigits.1
  let ds := signAndDigits.2
  if ds.isEmpty then none
  else if ds.all isDigitChar then
    let v : Int := if neg then -(Int.ofNat (digitsToNat ds)) else Int.ofNat (digitsToNat ds)
    if -9223372036854775808 ≤ v ∧ v ≤ 9223372036854775807 then some v else none
  else none

/-- Go `time.Date` normalization restricted to what the handler feeds it:
a month/day taken from the real clock with the year replaced.  Rolls an
out-of-range day into the following months; `fuel` bounds the loop. -/
def normDateAux : Nat → Int → Nat → Nat → Date
  | 0, y, m, d => ⟨y, m, d⟩
  | fuel + 1, y, m, d =>
    if d > daysInMonth y m then
      if m ≥ 12 then normDateAux fuel (y + 1) 1 (d - daysInMonth y m)
      else normDateAux fuel y (m + 1) (d - daysInMonth y m)
    else ⟨y, m, d⟩

/-- Go `time.Date(year, m, d, 0, 0, 0, 0, time.UTC)` for the arguments
the handler uses: the configured year with the real clock's month/day. -/
def normDate (y : Int) (m d : Nat) : Date :=
  normDateAux d y m d

/-- A row of the `appointments` table. -/
structure Appointment where
  id : Nat
  firstName : String
  lastName : String
  visitDate : String
  createdAt : Nat
deriving DecidableEq

/-- The decoded JSON body of a request. -/
structure AppointmentRequest where
  firstName : String
  lastName : String
  visitDate : String
deriving DecidableEq

/-- The `appointments` table: its rows and the next AUTOINCREMENT id. -/
structure DB where
  rows : List Appointment
  nextId : Nat
deriving DecidableEq

/-- The state `initDB` creates: an empty table, ids starting at 1. -/
def emptyDB : DB :=
  ⟨[], 1⟩

/-- The `Server` fields the handler reads: the holiday map (as the list
of its keys), the configured year string, and the test-only override of
"today". -/
structure Server where
  publicHolidays : List String
  yearStr : String
  todayOverride : Option Date
deriving DecidableEq

/-- Per-request environment: the real clock's month and day, the HTTP
method, the decoded body (`none` when JSON decoding fails), whether the
existence query and the insert fail for infrastructure reasons, the visit
dates committed by concurrent requests between the existence pre-check
and the insert, and the CURRENT_TIMESTAMP the store assigns. -/
structure Env where
  realMonth : Nat
  realDay : Nat
  method : String
  body : Option AppointmentRequest
  failExists : Bool
  failInsert : Bool
  raceDates : List String
  nowTs : Nat
deriving DecidableEq

/-- What the handler writes to the response: nothing at all (the early
return on a bad year string), an error status with the JSON error body's
`error` and `message` fields, or 201 with the created appointment. -/
inductive Outcome where
  | noResponse : Outcome
  | errorOut (status : Nat) (error : String) (message : String) : Outcome
  | created (appt : Appointment) : Outcome
deriving DecidableEq

/-- Result of one handler run: the response, the table afterwards, and
whether the existence query and the INSERT statement were issued. -/
structure HResult where
  outcome : Outcome
  db : DB
  existsQueried : Bool
  insertAttempted : Bool
deriving DecidableEq

/-- The fake "today": the override when set, otherwise the configured
year combined with the real clock's month and day. -/
def serverToday (s : Server) (env : Env) (year : Int) : Date :=
  match s.todayOverride with
  | some t => t
  | none => normDate year env.realMonth env.realDay

/-- `Server.isPublicHoliday`: membership of the formatted date in the
holiday map. -/
def isPublicHoliday (s : Server) (visitDate : Date) : Bool :=
  s.publicHolidays.contains (formatDate visitDate)

/-- `Server.appointmentExists`: `none` models a query error, otherwise
whether some row occupies the formatted date. -/
def appointmentExists (db : DB) (fail : Bool) (visitDate : Date) : Option Bool :=
  if fail then none
  else some (db.rows.any (fun a => a.visitDate == formatDate visitDate))

/-- The INSERT .. RETURNING step.  It fails (a non-nil `err`, reported as
500 database_error) on an infrastructure failure or when the UNIQUE
constraint on `visit_date` fires: the date is already present, either in
a row the pre-check saw or in one committed concurrently after it. -/
def insertAppointment (env : Env) (db : DB) (req : AppointmentRequest)
    (visitDate : Date) : HResult :=
  if env.failInsert || db.rows.any (fun a => a.visitDate == formatDate visitDate) ||
      env.raceDates.contains (formatDate visitDate) then
    ⟨Outcome.errorOut 500 "database_error" "Failed to create appointment", db, true, true⟩
  else
    ⟨Outcome.created ⟨db.nextId, req.firstName, req.lastName, formatDate visitDate, env.nowTs⟩,
      ⟨db.rows ++ [⟨db.nextId, req.firstName, req.lastName, formatDate visitDate, env.nowTs⟩],
        db.nextId + 1⟩,
      true, true⟩

/-- `Server.createAppointment` from src/main.go: parse the year string
(silently returning on error), build "today", check the method, decode
the body, then run the six validation checks in order (field presence,
date parse, year bound, past-date bound, holiday exclusion, duplicate
exclusion) and finally insert. -/
def createAppointment (s : Server) (env : Env) (db : DB) : HResult :=
  match atoi s.yearStr with
  | none => ⟨Outcome.noResponse, db, false, false⟩
  | some year =>
    if env.method ≠ "POST" then
      ⟨Outcome.errorOut 405 "method_not_allowed" "Only POST method is allowed", db, false, false⟩
    else
      match env.body with
      | none => ⟨Outcome.errorOut 400 "invalid_json" "Invalid JSON format", db, false, false⟩
      | some req =>
        if req.firstName = "" ∨ req.lastName = "" ∨ req.visitDate = "" then
          ⟨Outcome.errorOut 400 "missing_fields"
            "First name, last name, and visit date are required", db, false, false⟩
        else
          match parseDate req.visitDate with
          | none =>
            ⟨Outcome.errorOut 400 "invalid_date"
              "Visit date must be in YYYY-MM-DD format", db, false, false⟩
          | some visitDate =>
            if visitDate.y ≠ (serverToday s env year).y then
              ⟨Outcome.errorOut 400 "invalid_year"
                "Appointments can only be scheduled for year 2075", db, false, false⟩
            else if dateBefore visitDate (serverToday s env year) then
              ⟨Outcome.errorOut 400 "past_date"
                "Visit date cannot be in the past", db, false, false⟩
            else if isPublicHoliday s visitDate then
              ⟨Outcome.errorOut 400 "public_holiday"
                "Appointments cannot be scheduled on public holidays", db, false, false⟩
            else
              match appointmentExists db env.failExists visitDate with
              | none =>
                ⟨Outcome.errorOut 500 "database_error"
                  "Failed checking existing appointments", db, true, false⟩
              | some true =>
                ⟨Outcome.errorOut 409 "duplicate_appointment"
                  "An appointment is already Scheduled for this date", db, true, false⟩
              | some false => insertAppointment env db req visitDate

/-- One handler run, keeping only the table. -/
def runStep (db : DB) (se : Server × Env) : DB :=
  (createAppointment se.1 se.2 db).db

/-- A sequence of handler runs against the same table. -/
def runAll (steps : List (Server × Env)) (db : DB) : DB :=
  steps.foldl runStep db

section ModelChecks

example : parseDate "2075-06-15" = some ⟨2075, 6, 15⟩ := by decide
example : parseDate "2075/06/15" = none := by decide
example : parseDate "75-06-15" = none := by decide
example : parseDate "2075-13-01" = none := by decide
example : parseDate "2075-02-29" = none := by decide
example : parseDate "2076-02-29" = some ⟨2076, 2, 29⟩ := by decide
example : parseDate "2075-6-15" = none := by decide
example : parseDate "" = none := by decide
example : formatDate ⟨2075, 6, 15⟩ = "2075-06-15" := by decide
example : atoi "2075" = some 2075 := by decide
example : atoi "" = none := by decide
example : atoi "20x5" = none := by decide
example : normDate 2075 2 29 = ⟨2075, 3, 1⟩ := by decide
example : normDate 2075 12 31 = ⟨2075, 12, 31⟩ := by decide

end ModelChecks

/-! Helper lemmas about the model. -/

/-- Every month of every year has at least 28 days. -/
theorem daysInMonth_ge (y : Int) (m : Nat) : 28 ≤ daysInMonth y m := by
  unfold daysInMonth
  split
  · split <;> omega
  all_goals omega

/-- Normalizing a day that fits a real calendar month (at most 31) never
changes the year: the only possible overflow rolls into the next month,
and December always has the full 31 days. -/
theorem normDateAux_y (fuel : Nat) (y : Int) (m d : Nat)
    (hm1 : 1 ≤ m) (hm2 : m ≤ 12) (hd : d ≤ 31) :
    (normDateAux fuel y m d).y = y := by
  induction fuel generalizing m d with
  | zero => rfl
  | succ f ih =>
    unfold normDateAux
    split
    · rename_i hgt
      split
      · rename_i hm12
        exfalso
        have hm' : m = 12 := le_antisymm hm2 hm12
        have h31 : daysInMonth y 12 = 31 := rfl
        rw [hm', h31] at hgt
        omega
      · rename_i hm12
        have h28 := daysInMonth_ge y m
        exact ih (m + 1) (d - daysInMonth y m) (by omega) (by omega) (by omega)
    · rfl

/-- Without a today override, the constructed "today" lies in the
configured year whenever the real clock supplies a real month and day. -/
theorem serverToday_y (s : Server) (env : Env) (year : Int)
    (ho : s.todayOverride = none)
    (hm1 : 1 ≤ env.realMonth) (hm2 : env.realMonth ≤ 12)
    (hd2 : env.realDay ≤ 31) :
    (serverToday s env year).y = year := by
  simp only [serverToday, ho, normDate]
  exact normDateAux_y _ _ _ _ hm1 hm2 hd2

/-- A date is never strictly before itself. -/
theorem dateBefore_irrefl (d : Date) : dateBefore d d = false := by
  simp [dateBefore]

/-- A handler run never removes or rewrites a row: every row of the
table before the run is still a row of the table after it. -/
theorem mem_rows_createAppointment (s : Server) (env : Env) (db : DB) (a : Appointment)
    (ha : a ∈ db.rows) : a ∈ (createAppointment s env db).db.rows := by
  unfold createAppointment insertAppointment
  iterate 12 (all_goals try split)
  all_goals first | exact ha | simp [ha]

/-- Rows survive any sequence of handler runs. -/
theorem mem_rows_runAll (steps : List (Server × Env)) (db : DB) (a : Appointment)
    (ha : a ∈ db.rows) : a ∈ (runAll steps db).rows := by
  induction steps generalizing db with
  | nil => exact ha
  | cons se rest ih => exact ih (runStep db se) (mem_rows_createAppointment se.1 se.2 db a ha)

/-- When a run answers 201 with an appointment, that appointment is a
row of the resulting table. -/
theorem created_mem_rows (s : Server) (env : Env) (db : DB) (a : Appointment)
    (h : (createAppointment s env db).outcome = Outcome.created a) :
    a ∈ (createAppointment s env db).db.rows := by
  suffices h2 : ∀ res : HResult, createAppointment s env db = res →
      res.outcome = Outcome.created a → a ∈ res.db.rows by
    exact h2 _ rfl h
  intro res hres hro
  unfold createAppointment insertAppointment at hres
  iterate 12 (all_goals try split at hres)
  all_goals subst hres
  all_goals simp_all

/-- One handler run preserves distinctness of the visit dates: a row is
only ever appended after both the existence pre-check and the UNIQUE
constraint inside the insert have seen the date absent. -/
theorem step_pairwise (s : Server) (env : Env) (db : DB)
    (h : List.Pairwise (fun a b : Appointment => a.visitDate ≠ b.visitDate) db.rows) :
    List.Pairwise (fun a b : Appointment => a.visitDate ≠ b.visitDate)
      (createAppointment s env db).db.rows := by
  unfold createAppointment insertAppointment
  iterate 12 (all_goals try split)
  all_goals try exact h
  rename_i hguard
  rw [Bool.or_eq_true, Bool.or_eq_true] at hguard
  push_neg at hguard
  obtain ⟨⟨-, hany⟩, -⟩ := hguard
  simp only
  rw [List.pairwise_append]
  refine ⟨h, List.pairwise_singleton _ _, ?_⟩
  intro x hx b hb
  simp only [List.mem_singleton] at hb
  subst hb
  intro hEq
  apply hany
  rw [List.any_eq_true]
  exact ⟨x, hx, by simp [hEq]⟩

/-- Distinctness of visit dates is preserved by any sequence of runs. -/
theorem runAll_pairwise (steps : List (Server × Env)) (db : DB)
    (h : List.Pairwise (fun a b : Appointment => a.visitDate ≠ b.visitDate) db.rows) :
    List.Pairwise (fun a b : Appointment => a.visitDate ≠ b.visitDate) (runAll steps db).rows := by
  induction steps generalizing db with
  | nil => exact h
  | cons se rest ih => exact ih (runStep db se) (step_pairwise se.1 se.2 db h)

/-! Claim theorems. -/

/-- C1: the claim asks that an insert hitting the storage-level UNIQUE
constraint on the visit date (the race where the date was committed
between the pre-check and the insert) be reported as 409
duplicate_appointment.  The code instead reports every insert error,
including the uniqueness violation, as 500 database_error: at this
input the pre-check sees an empty table, a concurrent commit takes the
date, the insert fails on the constraint, and the handler answers 500
database_error rather than 409 duplicate_appointment. -/
theorem insertRaceConflictMisreported :
    (createAppointment ⟨[], "2075", some ⟨2075, 1, 1⟩⟩
        ⟨1, 1, "POST", some ⟨"A", "B", "2075-06-15"⟩, false, false, ["2075-06-15"], 0⟩
        emptyDB).outcome
      = Outcome.errorOut 500 "database_error" "Failed to create appointment"
    ∧ ¬ (createAppointment ⟨[], "2075", some ⟨2075, 1, 1⟩⟩
        ⟨1, 1, "POST", some ⟨"A", "B", "2075-06-15"⟩, false, false, ["2075-06-15"], 0⟩
        emptyDB).outcome
      = Outcome.errorOut 409 "duplicate_appointment"
          "An appointment is already Scheduled for this date" := by
  decide

/-- C2: once the year string parses, the method is POST and the body
decodes, the six validation checks run in the fixed order (field
presence, date parse, year bound, past-date bound, holiday exclusion,
duplicate exclusion) and short-circuit at the first failure: whatever
the later checks would say, the reported reason is that of the earliest
failing check. -/
theorem validationChecksOrderedShortCircuit (s : Server) (env : Env) (db : DB)
    (year : Int) (req : AppointmentRequest)
    (hy : atoi s.yearStr = some year) (hm : env.method = "POST")
    (hb : env.body = some req) :
    ((req.firstName = "" ∨ req.lastName = "" ∨ req.visitDate = "") →
      (createAppointment s env db).outcome = Outcome.errorOut 400 "missing_fields"
        "First name, last name, and visit date are required")
    ∧ (req.firstName ≠ "" → req.lastName ≠ "" → req.visitDate ≠ "" →
        parseDate req.visitDate = none →
        (createAppointment s env db).outcome = Outcome.errorOut 400 "invalid_date"
          "Visit date must be in YYYY-MM-DD format")
    ∧ (∀ vd : Date, req.firstName ≠ "" → req.lastName ≠ "" → req.visitDate ≠ "" →
        parseDate req.visitDate = some vd → vd.y ≠ (serverToday s env year).y →
        (createAppointment s env db).outcome = Outcome.errorOut 400 "invalid_year"
          "Appointments can only be scheduled for year 2075")
    ∧ (∀ vd : Date, req.firstName ≠ "" → req.lastName ≠ "" → req.visitDate ≠ "" →
        parseDate req.visitDate = some vd → vd.y = (serverToday s env year).y →
        dateBefore vd (serverToday s env year) = true →
        (createAppointment s env db).outcome = Outcome.errorOut 400 "past_date"
          "Visit date cannot be in the past")
    ∧ (∀ vd : Date, req.firstName ≠ "" → req.lastName ≠ "" → req.visitDate ≠ "" →
        parseDate req.visitDate = some vd → vd.y = (serverToday s env year).y →
        dateBefore vd (serverToday s env year) = false → isPublicHoliday s vd = true →
        (createAppointment s env db).outcome = Outcome.errorOut 400 "public_holiday"
          "Appointments cannot be scheduled on public holidays")
    ∧ (∀ vd : Date, req.firstName ≠ "" → req.lastName ≠ "" → req.visitDate ≠ "" →
        parseDate req.visitDate = some vd → vd.y = (serverToday s env year).y →
        dateBefore vd (serverToday s env year) = false → isPublicHoliday s vd = false →
        appointmentExists db env.failExists vd = some true →
        (createAppointment s env db).outcome = Outcome.errorOut 409 "duplicate_appointment"
          "An appointment is already Scheduled for this date") := by
  refine ⟨?_, ?_, ?_, ?_, ?_, ?_⟩
  · intro hmf
    simp [createAppointment, hy, hm, hb, hmf]
  · intro h1 h2 h3 hp
    simp [createAppointment, hy, hm, hb, h1, h2, h3, hp]
  · intro vd h1 h2 h3 hp hne
    simp [createAppointment, hy, hm, hb, h1, h2, h3, hp, hne]
  · intro vd h1 h2 h3 hp hyr hbf
    simp [createAppointment, hy, hm, hb, h1, h2, h3, hp, hyr, hbf]
  · intro vd h1 h2 h3 hp hyr hbf hhol
    simp [createAppointment, hy, hm, hb, h1, h2, h3, hp, hyr, hbf, hhol]
  · intro vd h1 h2 h3 hp hyr hbf hhol hex
    simp [createAppointment, hy, hm, hb, h1, h2, h3, hp, hyr, hbf, hhol, hex]

/-- Witness for C2: an empty firstName together with a malformed
visitDate reports missing_fields, and a malformed date carrying a wrong
year reports invalid_date. -/
theorem validationChecksOrderedShortCircuit_witness :
    (createAppointment ⟨[], "2075", some ⟨2075, 1, 1⟩⟩
        ⟨1, 1, "POST", some ⟨"", "X", "2075/06/15"⟩, false, false, [], 0⟩ emptyDB).outcome
      = Outcome.errorOut 400 "missing_fields"
          "First name, last name, and visit date are required"
    ∧ (createAppointment ⟨[], "2075", some ⟨2075, 1, 1⟩⟩
        ⟨1, 1, "POST", some ⟨"A", "B", "2074/06/15"⟩, false, false, [], 0⟩ emptyDB).outcome
      = Outcome.errorOut 400 "invalid_date" "Visit date must be in YYYY-MM-DD format" :=
  ⟨(validationChecksOrderedShortCircuit ⟨[], "2075", some ⟨2075, 1, 1⟩⟩
      ⟨1, 1, "POST", some ⟨"", "X", "2075/06/15"⟩, false, false, [], 0⟩ emptyDB
      2075 ⟨"", "X", "2075/06/15"⟩ (by decide) rfl rfl).1 (Or.inl rfl),
   (validationChecksOrderedShortCircuit ⟨[], "2075", some ⟨2075, 1, 1⟩⟩
      ⟨1, 1, "POST", some ⟨"A", "B", "2074/06/15"⟩, false, false, [], 0⟩ emptyDB
      2075 ⟨"A", "B", "2074/06/15"⟩ (by decide) rfl rfl).2.1
      (by decide) (by decide) (by decide) (by decide)⟩

/-- C3: for a well-formed request whose parsed date lies in the
configured year (with referenceToday itself in the configured year, as
the non-override construction guarantees), a date strictly earlier than
referenceToday is rejected as past_date, and a date equal to
referenceToday is never rejected as past_date. -/
theorem pastDateBoundary (s : Server) (env : Env) (db : DB) (year : Int)
    (req : AppointmentRequest) (vd : Date)
    (hy : atoi s.yearStr = some year) (hm : env.method = "POST") (hb : env.body = some req)
    (h1 : req.firstName ≠ "") (h2 : req.lastName ≠ "") (h3 : req.visitDate ≠ "")
    (hp : parseDate req.visitDate = some vd)
    (hty : (serverToday s env year).y = year)
    (hyr : vd.y = year) :
    (dateBefore vd (serverToday s env year) = true →
      (createAppointment s env db).outcome = Outcome.errorOut 400 "past_date"
        "Visit date cannot be in the past")
    ∧ (vd = serverToday s env year →
        (createAppointment s env db).outcome ≠ Outcome.errorOut 400 "past_date"
          "Visit date cannot be in the past") := by
  constructor
  · intro hbf
    have hyy : vd.y = (serverToday s env year).y := by rw [hyr, hty]
    simp [createAppointment, hy, hm, hb, h1, h2, h3, hp, hyy, hbf]
  · intro hveq
    subst hveq
    simp only [createAppointment, hy, hm, hb, h1, h2, h3, hp]
    simp [dateBefore_irrefl]
    split
    · simp
    · split <;> first | simp | (unfold insertAppointment; split <;> simp)

/-- Witness for C3: with today pinned to 2075-06-15, booking 2075-06-14
is rejected as past_date while booking 2075-06-15 itself is not. -/
theorem pastDateBoundary_witness :
    (createAppointment ⟨[], "2075", some ⟨2075, 6, 15⟩⟩
        ⟨1, 1, "POST", some ⟨"A", "B", "2075-06-14"⟩, false, false, [], 0⟩ emptyDB).outcome
      = Outcome.errorOut 400 "past_date" "Visit date cannot be in the past"
    ∧ (createAppointment ⟨[], "2075", some ⟨2075, 6, 15⟩⟩
        ⟨1, 1, "POST", some ⟨"A", "B", "2075-06-15"⟩, false, false, [], 0⟩ emptyDB).outcome
      ≠ Outcome.errorOut 400 "past_date" "Visit date cannot be in the past" :=
  ⟨(pastDateBoundary ⟨[], "2075", some ⟨2075, 6, 15⟩⟩
      ⟨1, 1, "POST", some ⟨"A", "B", "2075-06-14"⟩, false, false, [], 0⟩ emptyDB
      2075 ⟨"A", "B", "2075-06-14"⟩ ⟨2075, 6, 14⟩
      (by decide) rfl rfl (by decide) (by decide) (by decide) (by decide) rfl rfl).1 (by decide),
   (pastDateBoundary ⟨[], "2075", some ⟨2075, 6, 15⟩⟩
      ⟨1, 1, "POST", some ⟨"A", "B", "2075-06-15"⟩, false, false, [], 0⟩ emptyDB
      2075 ⟨"A", "B", "2075-06-15"⟩ ⟨2075, 6, 15⟩
      (by decide) rfl rfl (by decide) (by decide) (by decide) (by decide) rfl rfl).2 rfl⟩

/-- C4: with non-empty names, every non-empty visitDate string that Go
`time.Parse("2006-01-02", _)` rejects (wrong separator, partial date,
missing leading zeros, out-of-range month or day, non-numeric
component) is answered with invalid_date. -/
theorem malformedDateRejected (s : Server) (env : Env) (db : DB) (year : Int)
    (req : AppointmentRequest)
    (hy : atoi s.yearStr = some year) (hm : env.method = "POST") (hb : env.body = some req)
    (h1 : req.firstName ≠ "") (h2 : req.lastName ≠ "") (h3 : req.visitDate ≠ "")
    (hp : parseDate req.visitDate = none) :
    (createAppointment s env db).outcome
      = Outcome.errorOut 400 "invalid_date" "Visit date must be in YYYY-MM-DD format" := by
  simp [createAppointment, hy, hm, hb, h1, h2, h3, hp]

/-- Witness for C4: the slash-separated date of the spec scenario. -/
theorem malformedDateRejected_witness :
    (createAppointment ⟨[], "2075", some ⟨2075, 1, 1⟩⟩
        ⟨1, 1, "POST", some ⟨"A", "B", "2075/06/15"⟩, false, false, [], 0⟩ emptyDB).outcome
      = Outcome.errorOut 400 "invalid_date" "Visit date must be in YYYY-MM-DD format" :=
  malformedDateRejected ⟨[], "2075", some ⟨2075, 1, 1⟩⟩
    ⟨1, 1, "POST", some ⟨"A", "B", "2075/06/15"⟩, false, false, [], 0⟩ emptyDB
    2075 ⟨"A", "B", "2075/06/15"⟩ (by decide) rfl rfl
    (by decide) (by decide) (by decide) (by decide)

/-- C5 counterexample: with configured year 2075 but a todayOverride in
2074, a request for 2074-06-15, whose parsed year differs from the
configured year, is not rejected as invalid_year; it is created.  The
code compares the parsed year against today.Year(), not the configured
year. -/
theorem yearBoundOverride_cex :
    (createAppointment ⟨[], "2075", some ⟨2074, 1, 1⟩⟩
        ⟨1, 1, "POST", some ⟨"A", "B", "2074-06-15"⟩, false, false, [], 0⟩ emptyDB).outcome
      = Outcome.created ⟨1, "A", "B", "2074-06-15", 0⟩
    ∧ ¬ (createAppointment ⟨[], "2075", some ⟨2074, 1, 1⟩⟩
        ⟨1, 1, "POST", some ⟨"A", "B", "2074-06-15"⟩, false, false, [], 0⟩ emptyDB).outcome
      = Outcome.errorOut 400 "invalid_year"
          "Appointments can only be scheduled for year 2075" := by
  decide

/-- C5 amended: the year-bound check compares the parsed year against
referenceToday's year: a parsed year differing from today's year yields
invalid_year; and when no todayOverride is set, referenceToday's year
is the configured year (for any real clock month 1..12 and day 1..31),
so in that mode the check agrees with the configured year. -/
theorem yearBoundComparesTodayYear (s : Server) (env : Env) (db : DB) (year : Int)
    (req : AppointmentRequest) (vd : Date)
    (hy : atoi s.yearStr = some year) (hm : env.method = "POST") (hb : env.body = some req)
    (h1 : req.firstName ≠ "") (h2 : req.lastName ≠ "") (h3 : req.visitDate ≠ "")
    (hp : parseDate req.visitDate = some vd) :
    (vd.y ≠ (serverToday s env year).y →
      (createAppointment s env db).outcome = Outcome.errorOut 400 "invalid_year"
        "Appointments can only be scheduled for year 2075")
    ∧ (s.todayOverride = none → 1 ≤ env.realMonth → env.realMonth ≤ 12 →
        1 ≤ env.realDay → env.realDay ≤ 31 → (serverToday s env year).y = year) := by
  constructor
  · intro hne
    simp [createAppointment, hy, hm, hb, h1, h2, h3, hp, hne]
  · intro ho hm1 hm2 _ hd2
    exact serverToday_y s env year ho hm1 hm2 hd2

/-- Witness for the amended C5: an override in 2074 makes a 2075 date
invalid_year even though 2075 is the configured year, and without an
override the comparison year is the configured one. -/
theorem yearBoundComparesTodayYear_witness :
    (createAppointment ⟨[], "2075", some ⟨2074, 1, 1⟩⟩
        ⟨1, 1, "POST", some ⟨"A", "B", "2075-06-15"⟩, false, false, [], 0⟩ emptyDB).outcome
      = Outcome.errorOut 400 "invalid_year" "Appointments can only be scheduled for year 2075"
    ∧ (serverToday ⟨[], "2075", none⟩
        ⟨6, 15, "POST", some ⟨"A", "B", "2075-06-15"⟩, false, false, [], 0⟩ 2075).y = 2075 :=
  ⟨(yearBoundComparesTodayYear ⟨[], "2075", some ⟨2074, 1, 1⟩⟩
      ⟨1, 1, "POST", some ⟨"A", "B", "2075-06-15"⟩, false, false, [], 0⟩ emptyDB
      2075 ⟨"A", "B", "2075-06-15"⟩ ⟨2075, 6, 15⟩
      (by decide) rfl rfl (by decide) (by decide) (by decide) (by decide)).1 (by decide),
   (yearBoundComparesTodayYear ⟨[], "2075", none⟩
      ⟨6, 15, "POST", some ⟨"A", "B", "2075-06-15"⟩, false, false, [], 0⟩ emptyDB
      2075 ⟨"A", "B", "2075-06-15"⟩ ⟨2075, 6, 15⟩
      (by decide) rfl rfl (by decide) (by decide) (by decide) (by decide)).2
      rfl (by decide) (by decide) (by decide) (by decide)⟩

/-- C6: at the duplicate check, a failing store lookup is answered with
500 database_error while a successful lookup finding the date occupied
is answered with 409 duplicate_appointment. -/
theorem duplicateCheckDistinguishesDbError (s : Server) (env : Env) (db : DB) (year : Int)
    (req : AppointmentRequest) (vd : Date)
    (hy : atoi s.yearStr = some year) (hm : env.method = "POST") (hb : env.body = some req)
    (h1 : req.firstName ≠ "") (h2 : req.lastName ≠ "") (h3 : req.visitDate ≠ "")
    (hp : parseDate req.visitDate = some vd)
    (hyr : vd.y = (serverToday s env year).y)
    (hbf : dateBefore vd (serverToday s env year) = false)
    (hhol : isPublicHoliday s vd = false) :
    (env.failExists = true →
      (createAppointment s env db).outcome = Outcome.errorOut 500 "database_error"
        "Failed checking existing appointments")
    ∧ (env.failExists = false →
        db.rows.any (fun a => a.visitDate == formatDate vd) = true →
        (createAppointment s env db).outcome = Outcome.errorOut 409 "duplicate_appointment"
          "An appointment is already Scheduled for this date") := by
  constructor
  · intro hfe
    simp [createAppointment, appointmentExists, hy, hm, hb, h1, h2, h3, hp, hyr, hbf, hhol, hfe]
  · intro hfe hany
    simp [createAppointment, appointmentExists, hy, hm, hb, h1, h2, h3, hp, hyr, hbf, hhol,
      hfe, hany]

/-- Witness for C6: a failing lookup gives 500 database_error; the same
request against a table already holding the date gives 409. -/
theorem duplicateCheckDistinguishesDbError_witness :
    (createAppointment ⟨[], "2075", some ⟨2075, 1, 1⟩⟩
        ⟨1, 1, "POST", some ⟨"A", "B", "2075-06-15"⟩, true, false, [], 0⟩ emptyDB).outcome
      = Outcome.errorOut 500 "database_error" "Failed checking existing appointments"
    ∧ (createAppointment ⟨[], "2075", some ⟨2075, 1, 1⟩⟩
        ⟨1, 1, "POST", some ⟨"A", "B", "2075-06-15"⟩, false, false, [], 0⟩
        ⟨[⟨1, "C", "D", "2075-06-15", 0⟩], 2⟩).outcome
      = Outcome.errorOut 409 "duplicate_appointment"
          "An appointment is already Scheduled for this date" :=
  ⟨(duplicateCheckDistinguishesDbError ⟨[], "2075", some ⟨2075, 1, 1⟩⟩
      ⟨1, 1, "POST", some ⟨"A", "B", "2075-06-15"⟩, true, false, [], 0⟩ emptyDB
      2075 ⟨"A", "B", "2075-06-15"⟩ ⟨2075, 6, 15⟩
      (by decide) rfl rfl (by decide) (by decide) (by decide) (by decide)
      (by decide) (by decide) (by decide)).1 rfl,
   (duplicateCheckDistinguishesDbError ⟨[], "2075", some ⟨2075, 1, 1⟩⟩
      ⟨1, 1, "POST", some ⟨"A", "B", "2075-06-15"⟩, false, false, [], 0⟩
      ⟨[⟨1, "C", "D", "2075-06-15", 0⟩], 2⟩
      2075 ⟨"A", "B", "2075-06-15"⟩ ⟨2075, 6, 15⟩
      (by decide) rfl rfl (by decide) (by decide) (by decide) (by decide)
      (by decide) (by decide) (by decide)).2 rfl (by decide)⟩

/-- C7: round-trip: after a run that answers 201 with an appointment,
an error-free existence check for that date returns true after any
sequence of further runs against the same store. -/
theorem existsReflectsCommittedInsert (s : Server) (env : Env) (db : DB)
    (a : Appointment) (d : Date) (steps : List (Server × Env))
    (h : (createAppointment s env db).outcome = Outcome.created a)
    (hd : formatDate d = a.visitDate) :
    appointmentExists (runAll steps (createAppointment s env db).db) false d = some true := by
  have hmem := mem_rows_runAll steps _ a (created_mem_rows s env db a h)
  simp only [appointmentExists, Bool.false_eq_true, if_false]
  rw [Option.some_inj, List.any_eq_true]
  exact ⟨a, hmem, by simp [hd]⟩

/-- Witness for C7: book 2075-06-15, replay the identical request (it is
refused), and the existence check for the date still answers true. -/
theorem existsReflectsCommittedInsert_witness :
    appointmentExists
      (runAll [(⟨[], "2075", some ⟨2075, 1, 1⟩⟩,
          ⟨1, 1, "POST", some ⟨"A", "B", "2075-06-15"⟩, false, false, [], 0⟩)]
        (createAppointment ⟨[], "2075", some ⟨2075, 1, 1⟩⟩
          ⟨1, 1, "POST", some ⟨"A", "B", "2075-06-15"⟩, false, false, [], 0⟩ emptyDB).db)
      false ⟨2075, 6, 15⟩ = some true :=
  existsReflectsCommittedInsert ⟨[], "2075", some ⟨2075, 1, 1⟩⟩
    ⟨1, 1, "POST", some ⟨"A", "B", "2075-06-15"⟩, false, false, [], 0⟩ emptyDB
    ⟨1, "A", "B", "2075-06-15", 0⟩ ⟨2075, 6, 15⟩
    [(⟨[], "2075", some ⟨2075, 1, 1⟩⟩,
        ⟨1, 1, "POST", some ⟨"A", "B", "2075-06-15"⟩, false, false, [], 0⟩)]
    (by decide) (by decide)

/-- C8: invariant: starting from the empty table, any sequence of
handler runs (with any environments, including racy and failing ones)
leaves pairwise-distinct visit dates, and no run ever removes or
rewrites an existing row. -/
theorem atMostOneAppointmentPerDate :
    (∀ steps : List (Server × Env),
      List.Pairwise (fun a b : Appointment => a.visitDate ≠ b.visitDate)
        (runAll steps emptyDB).rows)
    ∧ (∀ (s : Server) (env : Env) (db : DB) (a : Appointment),
        a ∈ db.rows → a ∈ (createAppointment s env db).db.rows) :=
  ⟨fun steps => runAll_pairwise steps emptyDB List.Pairwise.nil,
   mem_rows_createAppointment⟩

/-- Witness for C8: a concrete existing row survives a successful run
for a different date. -/
theorem atMostOneAppointmentPerDate_witness :
    (⟨1, "C", "D", "2075-06-15", 0⟩ : Appointment) ∈ (DB.mk [⟨1, "C", "D", "2075-06-15", 0⟩] 2).rows
    ∧ (⟨1, "C", "D", "2075-06-15", 0⟩ : Appointment) ∈
        (createAppointment ⟨[], "2075", some ⟨2075, 1, 1⟩⟩
          ⟨1, 1, "POST", some ⟨"A", "B", "2075-07-01"⟩, false, false, [], 0⟩
          (DB.mk [⟨1, "C", "D", "2075-06-15", 0⟩] 2)).db.rows :=
  ⟨by decide,
   atMostOneAppointmentPerDate.2 ⟨[], "2075", some ⟨2075, 1, 1⟩⟩
     ⟨1, 1, "POST", some ⟨"A", "B", "2075-07-01"⟩, false, false, [], 0⟩
     (DB.mk [⟨1, "C", "D", "2075-06-15", 0⟩] 2) ⟨1, "C", "D", "2075-06-15", 0⟩ (by decide)⟩

/-- C9: frame: a request rejected with one of the five pre-store
reasons (missing_fields, invalid_date, invalid_year, past_date,
public_holiday) issues no existence query, attempts no insert, and
leaves the table unchanged. -/
theorem earlyRejectionLeavesStoreUntouched (s : Server) (env : Env) (db : DB) (r m : String)
    (h : (createAppointment s env db).outcome = Outcome.errorOut 400 r m)
    (hr : r ∈ ["missing_fields", "invalid_date", "invalid_year", "past_date", "public_holiday"]) :
    (createAppointment s env db).existsQueried = false ∧
      (createAppointment s env db).insertAttempted = false ∧
      (createAppointment s env db).db = db := by
  suffices h2 : ∀ res : HResult, createAppointment s env db = res →
      res.outcome = Outcome.errorOut 400 r m →
      res.existsQueried = false ∧ res.insertAttempted = false ∧ res.db = db by
    exact h2 _ rfl h
  intro res hres hro
  unfold createAppointment insertAppointment at hres
  iterate 12 (all_goals try split at hres)
  all_goals subst hres
  all_goals first | exact ⟨rfl, rfl, rfl⟩ | simp_all

/-- Witness for C9: a past_date rejection against a non-empty table
queries nothing, inserts nothing and changes nothing. -/
theorem earlyRejectionLeavesStoreUntouched_witness :
    (createAppointment ⟨[], "2075", some ⟨2075, 6, 15⟩⟩
        ⟨1, 1, "POST", some ⟨"A", "B", "2075-01-02"⟩, false, false, [], 0⟩
        (DB.mk [⟨1, "C", "D", "2075-06-15", 0⟩] 2)).existsQueried = false
    ∧ (createAppointment ⟨[], "2075", some ⟨2075, 6, 15⟩⟩
        ⟨1, 1, "POST", some ⟨"A", "B", "2075-01-02"⟩, false, false, [], 0⟩
        (DB.mk [⟨1, "C", "D", "2075-06-15", 0⟩] 2)).insertAttempted = false
    ∧ (createAppointment ⟨[], "2075", some ⟨2075, 6, 15⟩⟩
        ⟨1, 1, "POST", some ⟨"A", "B", "2075-01-02"⟩, false, false, [], 0⟩
        (DB.mk [⟨1, "C", "D", "2075-06-15", 0⟩] 2)).db
      = DB.mk [⟨1, "C", "D", "2075-06-15", 0⟩] 2 :=
  earlyRejectionLeavesStoreUntouched ⟨[], "2075", some ⟨2075, 6, 15⟩⟩
    ⟨1, 1, "POST", some ⟨"A", "B", "2075-01-02"⟩, false, false, [], 0⟩
    (DB.mk [⟨1, "C", "D", "2075-06-15", 0⟩] 2)
    "past_date" "Visit date cannot be in the past" (by decide) (by decide)

/-- C10: when the configured year string does not parse as an integer,
the handler returns without writing any status or body and without
touching the store, whatever the method and body: the early return
precedes the method check, the JSON decode and all validation. -/
theorem badYearStringSilentReturn (s : Server) (env : Env) (db : DB)
    (hy : atoi s.yearStr = none) :
    createAppointment s env db = ⟨Outcome.noResponse, db, false, false⟩ := by
  simp [createAppointment, hy]

/-- Witness for C10: an empty year string with a GET request and an
undecodable body still produces the silent empty result. -/
theorem badYearStringSilentReturn_witness :
    createAppointment ⟨[], "", none⟩ ⟨1, 1, "GET", none, false, false, [], 0⟩ emptyDB
      = ⟨Outcome.noResponse, emptyDB, false, false⟩ :=
  badYearStringSilentReturn ⟨[], "", none⟩ ⟨1, 1, "GET", none, false, false, [], 0⟩ emptyDB
    (by decide)

end CityNext
